import Mathlib

set_option linter.unusedVariables false

namespace BOT

/-!
Shallow embedding of the admission-control core of the BOT repository:
`src/app/services/rate_limiter.py` (sliding-window rate limiter backed by a
Redis sorted set and an atomic Lua script executed via EVALSHA) and
`src/app/routers/websocket.py` (the `ConnectionManager` session registry and
the websocket endpoint).

Conventions of the embedding:
* Python floats (`time.time()`) are modelled as exact rationals `ℚ`.
* Python ints are `ℤ` (or `ℕ` for sizes/counters that the source never makes
  negative).
* The Redis sorted set held under `rate_limit:<identifier>` is a list of
  entries, each carrying the member string `current_time .. ':' .. math.random()`
  (modelled as the pair of the two numbers) and its score.
* Redis semantics used by the script, as documented by Redis:
  - `ZREMRANGEBYSCORE key min max` removes the scores in the *inclusive*
    range `[min, max]`;
  - `ZRANGE key 0 0 WITHSCORES` returns the member with the least score;
  - a Lua number returned to the client (also inside a table) is converted
    to a RESP integer, discarding the decimal part (truncation toward zero).
* Exceptions are modelled by explicit branches: `is_allowed` catches every
  exception and falls open, so it is a total function here, mirroring the
  `try/except Exception` structure of the source.
-/

/-- One member of the sorted set stored under `rate_limit:<identifier>`.
The member string is `current_time .. ':' .. math.random()` (line 52 of
`rate_limiter.py`); we keep the two numeric components.  `score` is the
sorted-set score (`current_time` at insertion). -/
structure RLEntry where
  memberTime : ℚ
  memberRand : ℚ
  score : ℚ
deriving DecidableEq

/-- The store state for one `rate_limit:<identifier>` key: the sorted-set
entries plus the last TTL installed by `EXPIRE` (line 55), if any. -/
structure RLState where
  entries : List RLEntry
  expiry : Option ℚ
deriving DecidableEq

/-- Fresh key: no entries, no TTL. -/
def emptyRL : RLState := { entries := [], expiry := none }

/-- `redis.call('ZREMRANGEBYSCORE', key, 0, current_time - window)` (line 28):
removes every entry whose score lies in the inclusive range
`[0, current_time - window]`. -/
def trimEntries (now window : ℚ) (l : List RLEntry) : List RLEntry :=
  l.filter (fun e => decide (¬(0 ≤ e.score ∧ e.score ≤ now - window)))

/-- Score of the oldest remaining entry, as obtained by
`redis.call('ZRANGE', key, 0, 0, 'WITHSCORES')` (line 36): the least score
in the set, `none` when the set is empty. -/
def minScore : List RLEntry → Option ℚ
  | [] => none
  | e :: es =>
    match minScore es with
    | none => some e.score
    | some m => some (min e.score m)

/-- Whether the member built from `(t, r)` is already present (ZADD updates
the score of an existing member instead of adding a new one). -/
def hasMember (t r : ℚ) (l : List RLEntry) : Bool :=
  l.any (fun e => decide (e.memberTime = t ∧ e.memberRand = r))

/-- `redis.call('ZADD', key, score, member)`: update the score if the member
exists, otherwise add the new element. -/
def zadd (t r score : ℚ) (l : List RLEntry) : List RLEntry :=
  if hasMember t r l then
    l.map (fun e =>
      if e.memberTime = t ∧ e.memberRand = r then { e with score := score } else e)
  else l ++ [⟨t, r, score⟩]

/-- Conversion of a Lua number in a script reply to a RESP integer: Redis
discards the decimal part (truncation toward zero). -/
def luaTrunc (q : ℚ) : ℤ := Int.tdiv q.num (q.den : ℤ)

/-- The five-element table returned by the Lua script, after the Lua-number to
RESP-integer conversion: `{allowed, current_count, limit, reset_time,
remaining}` (lines 42-48 and 58-64 of `rate_limiter.py`). -/
structure ScriptReply where
  allowedFlag : ℤ
  currentCount : ℤ
  limitOut : ℤ
  resetTimeOut : ℤ
  remainingOut : ℤ
deriving DecidableEq

/-- The body of `RateLimiter._lua_script` (lines 20-65), executed atomically
against the state of one key.  `burst_limit` is read from `ARGV[4]`
(line 25) but never used afterwards. -/
def runScript (window : ℚ) (limit : ℤ) (now : ℚ) (burst_limit : ℤ) (rand : ℚ)
    (st : RLState) : ScriptReply × RLState :=
  let trimmed := trimEntries now window st.entries
  let current_count : ℤ := trimmed.length
  if current_count ≥ limit then
    let reset_time : ℚ :=
      match minScore trimmed with
      | none => 0
      | some s => s + window
    (⟨0, current_count, limit, luaTrunc reset_time, limit - current_count⟩,
     { entries := trimmed, expiry := st.expiry })
  else
    (⟨1, current_count + 1, limit, luaTrunc (now + window),
      limit - current_count - 1⟩,
     { entries := zadd now rand now trimmed, expiry := some (window + 1) })

/-- The dictionary returned by `RateLimiter.is_allowed` (lines 122-128 on
success, 133-140 on failure). -/
structure Decision where
  allowed : Bool
  current_count : ℤ
  limit : ℤ
  reset_time : ℚ
  remaining : ℤ
  error : Option String
deriving DecidableEq

/-- Python's `x or d` idiom on `Optional[int]`: `None` and `0` are falsy. -/
def pyOr (x : Option ℤ) (d : ℤ) : ℤ :=
  match x with
  | none => d
  | some v => if v = 0 then d else v

/-- Defaults from `core/config.py` (`Settings`). -/
def settings_rate_limit_requests : ℤ := 100
def settings_rate_limit_window : ℤ := 60
def settings_rate_limit_burst : ℤ := 20
def settings_websocket_max_message_size : ℕ := 16 * 1024

/-- The successful path of `RateLimiter.is_allowed` (lines 98-128): apply the
`x or default` fallbacks, run the script, and build the result dictionary
(`bool(result[0])`, `max(0, int(result[4]))`, `float(result[3])`). -/
def callOk (limitArg windowArg burstArg : Option ℤ) (now rand : ℚ)
    (st : RLState) : Decision × RLState :=
  let limit := pyOr limitArg settings_rate_limit_requests
  let window := pyOr windowArg settings_rate_limit_window
  let burst_limit := pyOr burstArg settings_rate_limit_burst
  let res := runScript (window : ℚ) limit now burst_limit rand st
  ({ allowed := decide (res.1.allowedFlag ≠ 0)
     current_count := res.1.currentCount
     limit := res.1.limitOut
     reset_time := (res.1.resetTimeOut : ℚ)
     remaining := max 0 res.1.remainingOut
     error := none }, res.2)

/-- The `except Exception` fallback of `is_allowed` (lines 130-140): fail open
with `allowed=True`, `limit or 100`, `time.time() + (window or 60)` and the
stringified exception under the extra `error` key. -/
def failDecision (limitArg windowArg : Option ℤ) (now : ℚ) (err : String) :
    Decision :=
  { allowed := true
    current_count := 0
    limit := pyOr limitArg 100
    reset_time := now + (pyOr windowArg 60 : ℚ)
    remaining := pyOr limitArg 100
    error := some err }

/-- Content hash (SHA1) of `RateLimiter._lua_script`, as returned by
`SCRIPT LOAD`; an abstract token in this model. -/
def luaScriptSHA : String := "sha1-of-sliding-window-script"

/-- The shared store as seen by the limiter: reachability (a round trip on an
unreachable store raises), the set of script SHAs currently loaded
(`SCRIPT LOAD` adds to it, a flush empties it), and the data of the one key
under consideration. -/
structure Store where
  reachable : Bool
  scripts : List String
  data : RLState
deriving DecidableEq

/-- Result of one `is_allowed` call: the returned dictionary, the limiter's
cached `_script_sha` afterwards, and the store afterwards. -/
structure RLResult where
  decision : Decision
  script_sha : Option String
  store : Store
deriving DecidableEq

/-- `redis_client.evalsha(self._script_sha, ...)` (lines 112-120) plus the
result mapping: raises (hence falls open) when the store is unreachable or
when the SHA is not among the loaded scripts (NOSCRIPT); no reload is
attempted in either case. -/
def evalshaStep (sha : Option String) (st : Store)
    (limitArg windowArg burstArg : Option ℤ) (now rand : ℚ) : RLResult :=
  if st.reachable then
    if (match sha with | some s => st.scripts.contains s | none => false) then
      let res := callOk limitArg windowArg burstArg now rand st.data
      ⟨res.1, sha, { st with data := res.2 }⟩
    else
      ⟨failDecision limitArg windowArg now "NOSCRIPT No matching script",
       sha, st⟩
  else ⟨failDecision limitArg windowArg now "store unreachable", sha, st⟩

/-- `RateLimiter.is_allowed` (lines 74-140) over the full model:
`_ensure_script_loaded` (lines 67-72) loads the script only when the cached
`_script_sha` is `None`; any exception in the body is caught and answered by
the fail-open dictionary. -/
def is_allowed (sha0 : Option String) (st0 : Store)
    (limitArg windowArg burstArg : Option ℤ) (now rand : ℚ) : RLResult :=
  match sha0 with
  | some _ => evalshaStep sha0 st0 limitArg windowArg burstArg now rand
  | none =>
    if st0.reachable then
      evalshaStep (some luaScriptSHA)
        { st0 with scripts := luaScriptSHA :: st0.scripts }
        limitArg windowArg burstArg now rand
    else ⟨failDecision limitArg windowArg now "store unreachable", none, st0⟩

/-!
Embedding of `src/app/routers/websocket.py`.

Python dicts (`active_connections`, `connection_metadata`) are modelled as
insertion-ordered association lists with the dict operations below: lookup,
membership, assignment (update in place or append), deletion, and in-place
mutation of a stored object.  Keys are unique in every state the program
builds, but the lemmas below do not need that invariant.
-/

/-- `d[k]` / `d.get(k)`. -/
def dlookup (k : String) : List (String × α) → Option α
  | [] => none
  | p :: ps => if p.1 = k then some p.2 else dlookup k ps

/-- `d[k] = v`: replace in place when the key exists, else append. -/
def dinsert (k : String) (v : α) : List (String × α) → List (String × α)
  | [] => [(k, v)]
  | p :: ps => if p.1 = k then (k, v) :: ps else p :: dinsert k v ps

/-- `del d[k]` (keys are unique, so removing every occurrence agrees). -/
def ddelete (k : String) : List (String × α) → List (String × α)
  | [] => []
  | p :: ps => if p.1 = k then ddelete k ps else p :: ddelete k ps

/-- In-place mutation of the object stored under `k` (Python mutates the
looked-up object; the dict keeps mapping `k` to it). -/
def dmodify (k : String) (f : α → α) : List (String × α) → List (String × α)
  | [] => []
  | p :: ps => if p.1 = k then (p.1, f p.2) :: ps else p :: dmodify k f ps

/-- A payload, by its wire (UTF-8 / binary) encoding; the source only ever
uses `len(message.encode('utf-8'))` resp. `len(message_bytes)` of it on the
paths modelled here. -/
structure Message where
  bytes : List ℕ
deriving DecidableEq

/-- `len(message.encode('utf-8'))` / `len(message_bytes)`. -/
def msgSize (m : Message) : ℕ := m.bytes.length

/-- A unit delivered over a websocket handle: either a payload forwarded by
the manager, or one of the structured JSON error objects built by
`json.dumps` in the source.  Each error constructor carries exactly the
numeric fields of the corresponding dict literal:
* `errTooLargeOut`: `{"error": "Message too large", "max_size": ...}`
  (lines 112-115);
* `errTooLargeIn`: `{"error": "Message too large", "max_size_bytes": ...,
  "received_size_bytes": ...}` (lines 225-229);
* `errRateLimited`: `{"error": "Rate limit exceeded", "retry_after": ...}`
  (lines 243-246). -/
inductive OutMsg
  | payload (m : Message)
  | errTooLargeOut (max_size : ℕ)
  | errTooLargeIn (max_size_bytes received_size_bytes : ℕ)
  | errRateLimited (retry_after : ℚ)
deriving DecidableEq

/-- The numeric fields carried by a delivered unit, in the order they appear
in the source's dict literal. -/
def OutMsg.numFields : OutMsg → List ℕ
  | .payload _ => []
  | .errTooLargeOut m => [m]
  | .errTooLargeIn m r => [m, r]
  | .errRateLimited _ => []

/-- The per-client metadata dict created in `ConnectionManager.connect`
(lines 51-58). -/
structure Session where
  connected_at : ℚ
  messages_sent : ℕ
  messages_received : ℕ
  bytes_sent : ℕ
  bytes_received : ℕ
  last_activity : ℚ
deriving DecidableEq

/-- A live websocket handle: whether `send_text` on it raises (a transport
failure), and the units delivered over it so far. -/
structure WSConn where
  fails : Bool
  sent : List OutMsg
deriving DecidableEq

/-- The two maps owned by `ConnectionManager` (lines 24-26). -/
structure ManagerState where
  active_connections : List (String × WSConn)
  connection_metadata : List (String × Session)
deriving DecidableEq

/-- The empty registry (`ConnectionManager.__init__`). -/
def emptyManager : ManagerState := { active_connections := [], connection_metadata := [] }

/-- Fresh metadata entry (lines 51-58); both timestamps are `time.time()`. -/
def newSession (now : ℚ) : Session :=
  { connected_at := now
    messages_sent := 0
    messages_received := 0
    bytes_sent := 0
    bytes_received := 0
    last_activity := now }

/-- A successful `websocket.send_text` on `client_id`'s registered handle:
append the unit to its delivery log. -/
def pushSent (client_id : String) (m : OutMsg) (st : ManagerState) : ManagerState :=
  let logUnit := fun (ws : WSConn) => { ws with sent := ws.sent ++ [m] }
  { st with active_connections :=
      dmodify client_id logUnit st.active_connections }

/-- `ConnectionManager.disconnect` (lines 69-84): drop the handle and the
metadata entry; a no-op for an absent id. -/
def disconnect (client_id : String) (st : ManagerState) : ManagerState :=
  { active_connections := ddelete client_id st.active_connections
    connection_metadata := ddelete client_id st.connection_metadata }

/-- `ConnectionManager.connect` (lines 28-67).  `rateAllowed` is the
`rate_limiter.is_allowed(f"ws_connect:{client_id}")["allowed"]` outcome;
`acceptFails` models `websocket.accept()` raising (caught by the
`except Exception`, which returns `False` without creating state). -/
def connect (ws : WSConn) (client_id : String) (rateAllowed acceptFails : Bool)
    (now : ℚ) (st : ManagerState) : Bool × ManagerState :=
  if rateAllowed = false then (false, st)
  else if acceptFails then (false, st)
  else
    (true,
     { active_connections := dinsert client_id ws st.active_connections
       connection_metadata :=
         dinsert client_id (newSession now) st.connection_metadata })

/-- The metrics update of `send_personal_message` (lines 121-125), guarded by
`if client_id in self.connection_metadata`. -/
def updateSendMeta (client_id : String) (now : ℚ) (nbytes : ℕ)
    (st : ManagerState) : ManagerState :=
  if (dlookup client_id st.connection_metadata).isSome then
    { st with connection_metadata :=
        dmodify client_id (fun s =>
          { s with messages_sent := s.messages_sent + 1
                   bytes_sent := s.bytes_sent + nbytes
                   last_activity := now }) st.connection_metadata }
  else st

/-- `ConnectionManager.send_personal_message` (lines 86-132).  The whole body
runs under `try/except Exception`, whose handler disconnects the client and
returns `False`; the only raising operation is `send_text` on a failing
handle (both the oversize-error send on line 112 and the payload send on
line 118). -/
def send_personal_message (now : ℚ) (message : Message) (client_id : String)
    (st : ManagerState) : Bool × ManagerState :=
  match dlookup client_id st.active_connections with
  | none => (false, st)
  | some ws =>
    let message_bytes := msgSize message
    if message_bytes > settings_websocket_max_message_size then
      if ws.fails then (false, disconnect client_id st)
      else
        (false,
         pushSent client_id
           (OutMsg.errTooLargeOut settings_websocket_max_message_size) st)
    else if ws.fails then (false, disconnect client_id st)
    else
      (true,
       updateSendMeta client_id now message_bytes
         (pushSent client_id (OutMsg.payload message) st))

/-- Truthiness of the `exclude_client: Optional[str]` argument in
`if exclude_client and client_id == exclude_client` (line 145). -/
def pyTruthyStr : Option String → Bool
  | none => false
  | some s => decide (s ≠ "")

/-- The `for client_id, _websocket in self.active_connections.items():` loop
of `broadcast` (lines 144-154), with CPython's iteration guard: at every
`next()` call — including the final one that would report exhaustion — the
iterator raises `RuntimeError: dictionary changed size during iteration`
when the dict's size differs from its size at iterator creation.
`send_personal_message` never raises (it catches internally), so the
`except` inside the loop body is unreachable; but its internal `disconnect`
on a transport failure shrinks `active_connections` mid-iteration.
Returns (raised, state, disconnected_clients). -/
def broadcastLoop (now : ℚ) (message : Message) (exclude_client : Option String)
    (origSize : ℕ) (st : ManagerState) (disconnected : List String) :
    List String → Bool × ManagerState × List String
  | [] =>
    if st.active_connections.length ≠ origSize then (true, st, disconnected)
    else (false, st, disconnected)
  | c :: rest =>
    if st.active_connections.length ≠ origSize then (true, st, disconnected)
    else if pyTruthyStr exclude_client && decide (some c = exclude_client) then
      broadcastLoop now message exclude_client origSize st disconnected rest
    else
      let r := send_personal_message now message c st
      broadcastLoop now message exclude_client origSize r.2
        (if r.1 then disconnected else disconnected ++ [c]) rest

/-- `ConnectionManager.broadcast` (lines 134-158): iterate the live handles,
then disconnect the clients whose delivery returned `False`.  The first
component is `true` when the loop raised `RuntimeError` (in which case the
cleanup loop on lines 157-158 is never reached and the exception propagates
to the caller). -/
def broadcast (now : ℚ) (message : Message) (exclude_client : Option String)
    (st : ManagerState) : Bool × ManagerState :=
  let r := broadcastLoop now message exclude_client
    st.active_connections.length st [] (st.active_connections.map Prod.fst)
  match r with
  | (true, st', _) => (true, st')
  | (false, st', disc) => (false, disc.foldl (fun s c => disconnect c s) st')

/-- Receive-counter update of the endpoint loop (lines 250-254), guarded by
`if client_id in manager.connection_metadata`. -/
def updateRecvMeta (client_id : String) (now : ℚ) (nbytes : ℕ)
    (st : ManagerState) : ManagerState :=
  if (dlookup client_id st.connection_metadata).isSome then
    { st with connection_metadata :=
        dmodify client_id (fun s =>
          { s with messages_received := s.messages_received + 1
                   bytes_received := s.bytes_received + nbytes
                   last_activity := now }) st.connection_metadata }
  else st

/-- Outcome of handling one received payload in `websocket_endpoint`:
whether an exception escaped the receive body (the outer handler on lines
269-274 then logs and — in `finally` — disconnects), and whether the payload
was handed to the message interpreter (`handle_message` /
`handle_text_message`, beyond the admission checks modelled here). -/
structure RecvOutcome where
  raised : Bool
  processed : Bool
  st : ManagerState
deriving DecidableEq

/-- The per-message body of `websocket_endpoint` (lines 209-263) for a
received data frame: size gate, then rate gate, then counter update and
hand-off.  `wsFails` models `websocket.send_text` raising on the endpoint's
handle (the registered handle of `client_id`); `rateCheck` is the decision
returned by `rate_limiter.is_allowed(f"ws_message:{client_id}")`. -/
def receiveStep (now : ℚ) (wsFails : Bool) (rateCheck : Decision)
    (client_id : String) (data : Message) (st : ManagerState) : RecvOutcome :=
  let n := msgSize data
  if n > settings_websocket_max_message_size then
    if wsFails then ⟨true, false, disconnect client_id st⟩
    else
      ⟨false, false,
       pushSent client_id
         (OutMsg.errTooLargeIn settings_websocket_max_message_size n) st⟩
  else if rateCheck.allowed = false then
    if wsFails then ⟨true, false, disconnect client_id st⟩
    else
      ⟨false, false,
       pushSent client_id
         (OutMsg.errRateLimited (rateCheck.reset_time - now)) st⟩
  else ⟨false, true, updateRecvMeta client_id now n st⟩

/-- Outcome of the admission prefix of `websocket_endpoint` (lines 187-197). -/
inductive AdmitResult
  | closedWithCode (code : ℕ) (st : ManagerState)
  | refused (st : ManagerState)
  | accepted (st : ManagerState)
deriving DecidableEq

/-- The admission prefix of `websocket_endpoint` (lines 187-197):
`if not client_id or len(client_id) > 100: close(code=4000)`, otherwise
`manager.connect`. -/
def websocket_endpoint_accept (ws : WSConn) (client_id : String)
    (rateAllowed acceptFails : Bool) (now : ℚ) (st : ManagerState) :
    AdmitResult :=
  if client_id = "" ∨ client_id.length > 100 then
    AdmitResult.closedWithCode 4000 st
  else
    match connect ws client_id rateAllowed acceptFails now st with
    | (false, st') => AdmitResult.refused st'
    | (true, st') => AdmitResult.accepted st'

/-- One registry operation, for stating invariants over arbitrary operation
sequences. -/
inductive RegOp
  | connectOp (ws : WSConn) (client_id : String) (rateAllowed acceptFails : Bool) (now : ℚ)
  | disconnectOp (client_id : String)
  | sendOp (message : Message) (client_id : String) (now : ℚ)
  | broadcastOp (message : Message) (exclude_client : Option String) (now : ℚ)

/-- Effect of one registry operation on the two maps (return values and the
raised flag are dropped; a raising broadcast still leaves its state). -/
def applyOp (op : RegOp) (st : ManagerState) : ManagerState :=
  match op with
  | .connectOp ws cid ra af now => (connect ws cid ra af now st).2
  | .disconnectOp cid => disconnect cid st
  | .sendOp m cid now => (send_personal_message now m cid st).2
  | .broadcastOp m ex now => (broadcast now m ex st).2

/-- Run a sequence of registry operations. -/
def runOps (ops : List RegOp) (st : ManagerState) : ManagerState :=
  ops.foldl (fun s op => applyOp op s) st

/-- The §3 Registry invariant: a metadata entry exists iff a live handle
exists for the same id. -/
def inSync (st : ManagerState) : Prop :=
  ∀ id : String,
    (dlookup id st.active_connections).isSome =
    (dlookup id st.connection_metadata).isSome

/-!
Multi-call runs of the limiter for one identifier: call `k` happens at time
`t k` with random tiebreaker `r k`, against the state left by the previous
calls, starting from a fresh key.
-/

/-- State of the identifier's key after the first `k` calls. -/
def stateAfter (limit window : ℤ) (t r : ℕ → ℚ) : ℕ → RLState
  | 0 => emptyRL
  | k + 1 =>
    (callOk (some limit) (some window) none (t k) (r k)
      (stateAfter limit window t r k)).2

/-- Decision returned by the `(k+1)`-st call (index `k`). -/
def decisionAt (limit window : ℤ) (t r : ℕ → ℚ) (k : ℕ) : Decision :=
  (callOk (some limit) (some window) none (t k) (r k)
    (stateAfter limit window t r k)).1

/-- The entry inserted by call `i` in such a run. -/
def c1Entry (t r : ℕ → ℚ) (i : ℕ) : RLEntry := ⟨t i, r i, t i⟩

lemma pyOr_some (v d : ℤ) (h : v ≠ 0) : pyOr (some v) d = v := by
  simp [pyOr, h]

lemma trimEntries_eq_self (now window : ℚ) (l : List RLEntry)
    (h : ∀ e ∈ l, now - window < e.score) : trimEntries now window l = l := by
  induction l with
  | nil => rfl
  | cons e es ih =>
    have he := h e (by simp)
    have hes : ∀ x ∈ es, now - window < x.score := fun x hx => h x (by simp [hx])
    simp only [trimEntries, List.filter_cons] at *
    rw [if_pos, ih hes]
    simp only [decide_eq_true_eq]
    rintro ⟨-, h2⟩
    linarith

lemma hasMember_false (tm rm : ℚ) (l : List RLEntry)
    (h : ∀ e ∈ l, e.memberTime ≠ tm) : hasMember tm rm l = false := by
  induction l with
  | nil => rfl
  | cons e es ih =>
    have he := h e (by simp)
    have hes : ∀ x ∈ es, x.memberTime ≠ tm := fun x hx => h x (by simp [hx])
    simp only [hasMember, List.any_cons] at *
    rw [ih hes]
    simp [he]

lemma zadd_fresh (tm rm s : ℚ) (l : List RLEntry)
    (h : hasMember tm rm l = false) : zadd tm rm s l = l ++ [⟨tm, rm, s⟩] := by
  simp [zadd, h]

/-- One allowed call: when nothing is old enough to be trimmed, the member is
fresh and the count is below the limit, the decision and the state update of
`is_allowed` on its successful path are exactly these. -/
lemma callOk_allow (L W : ℤ) (hL : L ≠ 0) (hW : W ≠ 0) (now rand : ℚ)
    (st : RLState)
    (hkeep : ∀ e ∈ st.entries, now - (W : ℚ) < e.score)
    (hfresh : ∀ e ∈ st.entries, e.memberTime ≠ now)
    (hcount : (st.entries.length : ℤ) < L) :
    callOk (some L) (some W) none now rand st =
      ({ allowed := true
         current_count := (st.entries.length : ℤ) + 1
         limit := L
         reset_time := (luaTrunc (now + (W : ℚ)) : ℚ)
         remaining := max 0 (L - (st.entries.length : ℤ) - 1)
         error := none },
       { entries := st.entries ++ [⟨now, rand, now⟩]
         expiry := some ((W : ℚ) + 1) }) := by
  have h1 : pyOr (some L) settings_rate_limit_requests = L := pyOr_some _ _ hL
  have h2 : pyOr (some W) settings_rate_limit_window = W := pyOr_some _ _ hW
  have h3 := trimEntries_eq_self now (W : ℚ) st.entries hkeep
  have h4 := zadd_fresh now rand now st.entries
    (hasMember_false now rand st.entries hfresh)
  simp only [callOk, runScript, h1, h2, h3, h4]
  rw [if_neg (by omega)]
  rfl

/-- One denied call: when nothing is trimmed and the count has reached the
limit, the decision and the (unchanged) state are exactly these. -/
lemma callOk_deny (L W : ℤ) (hL : L ≠ 0) (hW : W ≠ 0) (now rand : ℚ)
    (st : RLState)
    (hkeep : ∀ e ∈ st.entries, now - (W : ℚ) < e.score)
    (hcount : (st.entries.length : ℤ) ≥ L) :
    callOk (some L) (some W) none now rand st =
      ({ allowed := false
         current_count := (st.entries.length : ℤ)
         limit := L
         reset_time :=
           (luaTrunc (match minScore st.entries with
             | none => 0
             | some s => s + (W : ℚ)) : ℚ)
         remaining := max 0 (L - (st.entries.length : ℤ))
         error := none },
       { entries := st.entries, expiry := st.expiry }) := by
  have h1 : pyOr (some L) settings_rate_limit_requests = L := pyOr_some _ _ hL
  have h2 : pyOr (some W) settings_rate_limit_window = W := pyOr_some _ _ hW
  have h3 := trimEntries_eq_self now (W : ℚ) st.entries hkeep
  simp only [callOk, runScript, h1, h2, h3]
  rw [if_pos (by omega)]
  rfl

/-- In a run whose first `limit.toNat + 1` call times are strictly increasing
and span less than the window, every entry present before call `k` is too
recent to be trimmed, has a distinct member time, and there are fewer than
`limit` of them while `k < limit.toNat`. -/
lemma c1_conds (L W : ℤ) (t r : ℕ → ℚ)
    (hmono : ∀ i j : ℕ, i < j → j ≤ L.toNat → t i < t j)
    (hspan : ∀ i : ℕ, i ≤ L.toNat → t i < t 0 + (W : ℚ))
    (k : ℕ) (hk : k ≤ L.toNat) :
    ∀ e ∈ (List.range k).map (c1Entry t r),
      (t k - (W : ℚ) < e.score ∧ e.memberTime ≠ t k) := by
  intro e he
  simp only [List.mem_map, List.mem_range] at he
  obtain ⟨i, hi, rfl⟩ := he
  have h0i : t 0 ≤ t i := by
    rcases Nat.eq_zero_or_pos i with h | h
    · subst h; exact le_refl _
    · exact le_of_lt (hmono 0 i h (by omega))
  have hik : t i < t k := hmono i k hi hk
  refine ⟨?_, ne_of_lt hik⟩
  have := hspan k hk
  simp only [c1Entry]
  linarith

/-- In such a run, after `k ≤ limit.toNat` calls the key holds exactly the
`k` entries inserted so far. -/
lemma stateAfter_entries (L W : ℤ) (t r : ℕ → ℚ) (hL : 0 < L) (hW : 0 < W)
    (hmono : ∀ i j : ℕ, i < j → j ≤ L.toNat → t i < t j)
    (hspan : ∀ i : ℕ, i ≤ L.toNat → t i < t 0 + (W : ℚ)) :
    ∀ k, k ≤ L.toNat →
      (stateAfter L W t r k).entries = (List.range k).map (c1Entry t r) := by
  intro k
  induction k with
  | zero => intro _; simp [stateAfter, emptyRL]
  | succ n ih =>
    intro hn
    have hn' : n ≤ L.toNat := by omega
    have hent := ih hn'
    have hconds := c1_conds L W t r hmono hspan n hn'
    have hLZ : (L.toNat : ℤ) = L := Int.toNat_of_nonneg hL.le
    have hkeep : ∀ e ∈ (stateAfter L W t r n).entries,
        t n - (W : ℚ) < e.score := by
      rw [hent]; intro e he; exact (hconds e he).1
    have hfresh : ∀ e ∈ (stateAfter L W t r n).entries,
        e.memberTime ≠ t n := by
      rw [hent]; intro e he; exact (hconds e he).2
    have hcount : ((stateAfter L W t r n).entries.length : ℤ) < L := by
      rw [hent]
      simp only [List.length_map, List.length_range]
      omega
    show (callOk (some L) (some W) none (t n) (r n)
      (stateAfter L W t r n)).2.entries = _
    rw [callOk_allow L W (by omega) (by omega) (t n) (r n)
      (stateAfter L W t r n) hkeep hfresh hcount]
    simp only [hent, List.range_succ, List.map_append, List.map_cons,
      List.map_nil]
    rfl

/-- Claim C1: starting from a fresh key, for a limiter with `limit = L > 0`
and `window = W > 0`, a run of `L + 1` calls at distinct (strictly
increasing) timestamps that all lie inside one sliding `W`-second interval
(`t i < t 0 + W`) has its first `L` calls allowed, and its `(L+1)`-st call
denied with `remaining = 0` in the returned decision. -/
theorem c1_sliding_window_exactness (limit window : ℤ) (t r : ℕ → ℚ)
    (hL : 0 < limit) (hW : 0 < window)
    (hmono : ∀ i j : ℕ, i < j → j ≤ limit.toNat → t i < t j)
    (hspan : ∀ i : ℕ, i ≤ limit.toNat → t i < t 0 + (window : ℚ)) :
    (∀ k, k < limit.toNat →
      (decisionAt limit window t r k).allowed = true) ∧
    (decisionAt limit window t r limit.toNat).allowed = false ∧
    (decisionAt limit window t r limit.toNat).remaining = 0 := by
  have hLZ : (limit.toNat : ℤ) = limit := Int.toNat_of_nonneg hL.le
  have hstate := stateAfter_entries limit window t r hL hW hmono hspan
  refine ⟨?_, ?_, ?_⟩
  · intro k hk
    have hent := hstate k (le_of_lt hk)
    have hconds := c1_conds limit window t r hmono hspan k (le_of_lt hk)
    have hkeep : ∀ e ∈ (stateAfter limit window t r k).entries,
        t k - (window : ℚ) < e.score := by
      rw [hent]; intro e he; exact (hconds e he).1
    have hfresh : ∀ e ∈ (stateAfter limit window t r k).entries,
        e.memberTime ≠ t k := by
      rw [hent]; intro e he; exact (hconds e he).2
    have hcount : ((stateAfter limit window t r k).entries.length : ℤ) <
        limit := by
      rw [hent]; simp only [List.length_map, List.length_range]; omega
    unfold decisionAt
    rw [callOk_allow limit window (by omega) (by omega) (t k) (r k)
      (stateAfter limit window t r k) hkeep hfresh hcount]
  · have hent := hstate limit.toNat (le_refl _)
    have hconds := c1_conds limit window t r hmono hspan limit.toNat
      (le_refl _)
    have hkeep : ∀ e ∈ (stateAfter limit window t r limit.toNat).entries,
        t limit.toNat - (window : ℚ) < e.score := by
      rw [hent]; intro e he; exact (hconds e he).1
    have hcount : ((stateAfter limit window t r
        limit.toNat).entries.length : ℤ) ≥ limit := by
      rw [hent]; simp only [List.length_map, List.length_range]; omega
    unfold decisionAt
    rw [callOk_deny limit window (by omega) (by omega) (t limit.toNat)
      (r limit.toNat) (stateAfter limit window t r limit.toNat) hkeep hcount]
  · have hent := hstate limit.toNat (le_refl _)
    have hconds := c1_conds limit window t r hmono hspan limit.toNat
      (le_refl _)
    have hkeep : ∀ e ∈ (stateAfter limit window t r limit.toNat).entries,
        t limit.toNat - (window : ℚ) < e.score := by
      rw [hent]; intro e he; exact (hconds e he).1
    have hcount : ((stateAfter limit window t r
        limit.toNat).entries.length : ℤ) ≥ limit := by
      rw [hent]; simp only [List.length_map, List.length_range]; omega
    unfold decisionAt
    rw [callOk_deny limit window (by omega) (by omega) (t limit.toNat)
      (r limit.toNat) (stateAfter limit window t r limit.toNat) hkeep hcount]
    rw [hent]
    simp only [List.length_map, List.length_range]
    omega

/-- Witness for C1 at `limit = 2`, `window = 10`, call times `0, 1, 2` and a
constant random tiebreaker. -/
theorem c1_witness :
    (∀ k, k < (2 : ℤ).toNat →
      (decisionAt 2 10 (fun i => (i : ℚ)) (fun _ => 0) k).allowed = true) ∧
    (decisionAt 2 10 (fun i => (i : ℚ)) (fun _ => 0) (2 : ℤ).toNat).allowed
      = false ∧
    (decisionAt 2 10 (fun i => (i : ℚ)) (fun _ => 0) (2 : ℤ).toNat).remaining
      = 0 :=
  c1_sliding_window_exactness 2 10 (fun i => (i : ℚ)) (fun _ => 0)
    (by decide) (by decide)
    (fun i j hij hj => by show (i : ℚ) < (j : ℚ); exact_mod_cast hij)
    (fun i hi => by
      have h2 : i ≤ 2 := hi
      have h3 : (i : ℚ) ≤ 2 := by exact_mod_cast h2
      show (i : ℚ) < ((0 : ℕ) : ℚ) + 10
      push_cast
      linarith)

/-- Claim C10: the `burst_limit` argument is read (defaulted with the `or`
idiom and passed to the script as `ARGV[4]`) but never influences the
decision, the store state, or any returned field: `is_allowed` is constant
in it. -/
theorem c10_burst_limit_unused (sha0 : Option String) (st0 : Store)
    (limitArg windowArg b1 b2 : Option ℤ) (now rand : ℚ) :
    is_allowed sha0 st0 limitArg windowArg b1 now rand =
    is_allowed sha0 st0 limitArg windowArg b2 now rand := by
  cases sha0 <;> rfl

/-- Claim C2: when the store round trip fails (unreachable store), the
limiter never raises — modelled by `is_allowed` being total — and returns
`allowed = True` with the best-effort defaults `limit or 100` for both
`limit` and `remaining`, `time.time() + (window or 60)` as `reset_time`, an
error annotation, and an untouched store. -/
theorem c2_fail_open (sha0 : Option String) (st0 : Store)
    (limitArg windowArg burstArg : Option ℤ) (now rand : ℚ)
    (h : st0.reachable = false) :
    (is_allowed sha0 st0 limitArg windowArg burstArg now
      rand).decision.allowed = true ∧
    (is_allowed sha0 st0 limitArg windowArg burstArg now
      rand).decision.error.isSome = true ∧
    (is_allowed sha0 st0 limitArg windowArg burstArg now
      rand).decision.limit = pyOr limitArg 100 ∧
    (is_allowed sha0 st0 limitArg windowArg burstArg now
      rand).decision.remaining = pyOr limitArg 100 ∧
    (is_allowed sha0 st0 limitArg windowArg burstArg now
      rand).decision.reset_time = now + (pyOr windowArg 60 : ℚ) ∧
    (is_allowed sha0 st0 limitArg windowArg burstArg now
      rand).store = st0 := by
  cases sha0 <;> simp [is_allowed, evalshaStep, failDecision, h]

/-- Witness for C2: a concrete call against an unreachable store. -/
theorem c2_witness :
    (is_allowed none ⟨false, [], emptyRL⟩ (some 5) (some 7) none 2
      3).decision.allowed = true ∧
    (is_allowed none ⟨false, [], emptyRL⟩ (some 5) (some 7) none 2
      3).decision.error.isSome = true ∧
    (is_allowed none ⟨false, [], emptyRL⟩ (some 5) (some 7) none 2
      3).decision.limit = pyOr (some 5) 100 ∧
    (is_allowed none ⟨false, [], emptyRL⟩ (some 5) (some 7) none 2
      3).decision.remaining = pyOr (some 5) 100 ∧
    (is_allowed none ⟨false, [], emptyRL⟩ (some 5) (some 7) none 2
      3).decision.reset_time = 2 + (pyOr (some 7) 60 : ℚ) ∧
    (is_allowed none ⟨false, [], emptyRL⟩ (some 5) (some 7) none 2
      3).store = ⟨false, [], emptyRL⟩ :=
  c2_fail_open none ⟨false, [], emptyRL⟩ (some 5) (some 7) none 2 3 rfl

/-- Claim C9 counterexample: the limiter has its `_script_sha` cached and the
store (reachable, key holding two entries, `limit = 1`) has evicted the
script.  The claim says the script is "reloaded transparently on a handle
miss"; instead the call falls open: the store's script set is still empty
after the call (no reload happened), the decision carries the NOSCRIPT
error annotation, and it reports `allowed = true` with `current_count = 0`
even though a freshly executed script would have denied (2 entries ≥ 1). -/
theorem c9_counterexample :
    (is_allowed (some luaScriptSHA) ⟨true, [], ⟨[⟨0, 0, 0⟩, ⟨0, 1, 0⟩], none⟩⟩
      (some 1) (some 10) none 1 0).store.scripts = [] ∧
    (is_allowed (some luaScriptSHA) ⟨true, [], ⟨[⟨0, 0, 0⟩, ⟨0, 1, 0⟩], none⟩⟩
      (some 1) (some 10) none 1 0).decision.error
      = some "NOSCRIPT No matching script" ∧
    (is_allowed (some luaScriptSHA) ⟨true, [], ⟨[⟨0, 0, 0⟩, ⟨0, 1, 0⟩], none⟩⟩
      (some 1) (some 10) none 1 0).decision.allowed = true ∧
    (is_allowed (some luaScriptSHA) ⟨true, [], ⟨[⟨0, 0, 0⟩, ⟨0, 1, 0⟩], none⟩⟩
      (some 1) (some 10) none 1 0).decision.current_count = 0 := by
  decide

/-- Claim C9 (amended): if the store evicts the script handle after it was
first loaded (cached `_script_sha` set, SHA absent from the store), the
next `is_allowed` call still returns a decision without raising, but via
the fail-open path: `allowed = true` with an error annotation; the script
is *not* reloaded (the store is unchanged) and the cached SHA is kept. -/
theorem c9_no_reload_fails_open (st0 : Store)
    (limitArg windowArg burstArg : Option ℤ) (now rand : ℚ)
    (hreach : st0.reachable = true)
    (hmiss : st0.scripts.contains luaScriptSHA = false) :
    (is_allowed (some luaScriptSHA) st0 limitArg windowArg burstArg now
      rand).decision.allowed = true ∧
    (is_allowed (some luaScriptSHA) st0 limitArg windowArg burstArg now
      rand).decision.error.isSome = true ∧
    (is_allowed (some luaScriptSHA) st0 limitArg windowArg burstArg now
      rand).store = st0 ∧
    (is_allowed (some luaScriptSHA) st0 limitArg windowArg burstArg now
      rand).script_sha = some luaScriptSHA := by
  have hmiss' : luaScriptSHA ∉ st0.scripts := by simpa using hmiss
  simp [is_allowed, evalshaStep, hreach, hmiss', failDecision]

/-- Witness for the amended C9 on a concrete evicted-script store. -/
theorem c9_witness :
    (is_allowed (some luaScriptSHA) ⟨true, ["unrelated"], emptyRL⟩
      (some 3) (some 9) none 4 5).decision.allowed = true ∧
    (is_allowed (some luaScriptSHA) ⟨true, ["unrelated"], emptyRL⟩
      (some 3) (some 9) none 4 5).decision.error.isSome = true ∧
    (is_allowed (some luaScriptSHA) ⟨true, ["unrelated"], emptyRL⟩
      (some 3) (some 9) none 4 5).store = ⟨true, ["unrelated"], emptyRL⟩ ∧
    (is_allowed (some luaScriptSHA) ⟨true, ["unrelated"], emptyRL⟩
      (some 3) (some 9) none 4 5).script_sha = some luaScriptSHA :=
  c9_no_reload_fails_open ⟨true, ["unrelated"], emptyRL⟩
    (some 3) (some 9) none 4 5 rfl (by decide)

/-- State of the scenario key (`limit = 2`, `window = 10`) after the call at
`t = 0`, then after `t = 1`, then after the denied call at `t = 2`. -/
def scenState1 : RLState := (callOk (some 2) (some 10) none 0 0 emptyRL).2

def scenState2 : RLState := (callOk (some 2) (some 10) none 1 1 scenState1).2

def scenState3 : RLState := (callOk (some 2) (some 10) none 2 2 scenState2).2

lemma scenState1_eval : scenState1 = ⟨[⟨0, 0, 0⟩], some 11⟩ := by
  norm_num [scenState1, callOk, runScript, trimEntries, minScore, zadd,
    hasMember, luaTrunc, pyOr, settings_rate_limit_requests,
    settings_rate_limit_window, settings_rate_limit_burst, emptyRL]

lemma scenState2_eval : scenState2 = ⟨[⟨0, 0, 0⟩, ⟨1, 1, 1⟩], some 11⟩ := by
  norm_num [scenState2, scenState1_eval, callOk, runScript, trimEntries,
    minScore, zadd, hasMember, luaTrunc, pyOr, settings_rate_limit_requests,
    settings_rate_limit_window, settings_rate_limit_burst]

lemma scenState3_eval : scenState3 = ⟨[⟨0, 0, 0⟩, ⟨1, 1, 1⟩], some 11⟩ := by
  norm_num [scenState3, scenState2_eval, callOk, runScript, trimEntries,
    minScore, zadd, hasMember, luaTrunc, pyOr, settings_rate_limit_requests,
    settings_rate_limit_window, settings_rate_limit_burst]

/-- The spec's end-to-end scenario, evaluated on the model: limit 2,
window 10, calls at `t = 0, 1, 2, 11`. -/
lemma scenario_eval :
    (callOk (some 2) (some 10) none 0 0 emptyRL).1.allowed = true ∧
    (callOk (some 2) (some 10) none 0 0 emptyRL).1.remaining = 1 ∧
    (callOk (some 2) (some 10) none 1 1 scenState1).1.allowed = true ∧
    (callOk (some 2) (some 10) none 1 1 scenState1).1.remaining = 0 ∧
    (callOk (some 2) (some 10) none 2 2 scenState2).1.allowed = false ∧
    (callOk (some 2) (some 10) none 2 2 scenState2).1.reset_time = 10 ∧
    (callOk (some 2) (some 10) none 11 3 scenState3).1.allowed = true ∧
    (callOk (some 2) (some 10) none 11 3 scenState3).1.remaining = 1 := by
  have htd : Int.tdiv 10 1 = 10 := by decide
  refine ⟨?_, ?_, ?_, ?_, ?_, ?_, ?_, ?_⟩ <;>
    norm_num [scenState1_eval, scenState2_eval, scenState3_eval, callOk,
      runScript, trimEntries, minScore, zadd, hasMember, luaTrunc, pyOr,
      settings_rate_limit_requests, settings_rate_limit_window,
      settings_rate_limit_burst, emptyRL, htd]

/-- Claim C3 counterexample: on an allowed call at the fractional time
`now = 1/2` with `window = 10` against a fresh key, the returned
`reset_time` is `10`, not `now + window = 10.5`: the store converts the Lua
number `current_time + window` in the script reply to an integer,
discarding the decimal part. -/
theorem c3_counterexample :
    (callOk (some 1) (some 10) none (1 / 2 : ℚ) 0 emptyRL).1.allowed
      = true ∧
    (callOk (some 1) (some 10) none (1 / 2 : ℚ) 0 emptyRL).1.reset_time
      = 10 ∧
    (callOk (some 1) (some 10) none (1 / 2 : ℚ) 0 emptyRL).1.reset_time
      ≠ (1 / 2 : ℚ) + 10 := by
  have htd : Int.tdiv 21 2 = 10 := by decide
  refine ⟨?_, ?_, ?_⟩ <;>
    norm_num [callOk, runScript, trimEntries, minScore, zadd, hasMember,
      luaTrunc, pyOr, settings_rate_limit_requests,
      settings_rate_limit_window, settings_rate_limit_burst, emptyRL, htd]

/-- Claim C3 (amended): for every call with a fresh member, writing `trimmed`
for the set after the pre-count trim and `cnt` for its size: if
`cnt ≥ limit`, the decision is denied with `current_count = cnt`,
`reset_time` the truncation of (score of the oldest remaining entry plus
the window, `0` if none), `remaining = max 0 (limit - cnt)`, and the state
untouched except for the trim; otherwise a new entry scored at `now` is
inserted, the key expiry is set to `window + 1` seconds, and the decision
is allowed with `remaining = limit - cnt - 1` and `reset_time` the
truncation of `now + window`.  On the end-to-end scenario (identifier
fresh, `limit = 2`, `window = 10`): calls at `t = 0` and `t = 1` are
allowed with `remaining` 1 then 0, the call at `t = 2` is denied with
`reset_time = 10`, and the call at `t = 11` is allowed with
`remaining = 1`. -/
theorem c3_per_call_and_scenario (limit window : ℤ) (hl : limit ≠ 0)
    (hw : window ≠ 0) (now rand : ℚ) (st : RLState)
    (hfresh :
      hasMember now rand (trimEntries now (window : ℚ) st.entries) = false) :
    ((((trimEntries now (window : ℚ) st.entries).length : ℤ) ≥ limit →
      callOk (some limit) (some window) none now rand st =
        ({ allowed := false
           current_count :=
             ((trimEntries now (window : ℚ) st.entries).length : ℤ)
           limit := limit
           reset_time :=
             (luaTrunc (match minScore (trimEntries now (window : ℚ)
                 st.entries) with
               | none => 0
               | some s => s + (window : ℚ)) : ℚ)
           remaining :=
             max 0 (limit -
               ((trimEntries now (window : ℚ) st.entries).length : ℤ))
           error := none },
         { entries := trimEntries now (window : ℚ) st.entries
           expiry := st.expiry })) ∧
     (((trimEntries now (window : ℚ) st.entries).length : ℤ) < limit →
      callOk (some limit) (some window) none now rand st =
        ({ allowed := true
           current_count :=
             ((trimEntries now (window : ℚ) st.entries).length : ℤ) + 1
           limit := limit
           reset_time := (luaTrunc (now + (window : ℚ)) : ℚ)
           remaining :=
             limit -
               ((trimEntries now (window : ℚ) st.entries).length : ℤ) - 1
           error := none },
         { entries :=
             trimEntries now (window : ℚ) st.entries ++ [⟨now, rand, now⟩]
           expiry := some ((window : ℚ) + 1) }))) ∧
    ((callOk (some 2) (some 10) none 0 0 emptyRL).1.allowed = true ∧
     (callOk (some 2) (some 10) none 0 0 emptyRL).1.remaining = 1 ∧
     (callOk (some 2) (some 10) none 1 1 scenState1).1.allowed = true ∧
     (callOk (some 2) (some 10) none 1 1 scenState1).1.remaining = 0 ∧
     (callOk (some 2) (some 10) none 2 2 scenState2).1.allowed = false ∧
     (callOk (some 2) (some 10) none 2 2 scenState2).1.reset_time = 10 ∧
     (callOk (some 2) (some 10) none 11 3 scenState3).1.allowed = true ∧
     (callOk (some 2) (some 10) none 11 3 scenState3).1.remaining = 1) := by
  have h1 : pyOr (some limit) settings_rate_limit_requests = limit :=
    pyOr_some _ _ hl
  have h2 : pyOr (some window) settings_rate_limit_window = window :=
    pyOr_some _ _ hw
  have h4 := zadd_fresh now rand now
    (trimEntries now (window : ℚ) st.entries) hfresh
  refine ⟨⟨?_, ?_⟩, scenario_eval⟩
  · intro hge
    simp only [callOk, runScript, h1, h2, h4]
    rw [if_pos (by omega)]
    rfl
  · intro hlt
    simp only [callOk, runScript, h1, h2, h4]
    rw [if_neg (by omega)]
    simp only [Prod.mk.injEq, Decision.mk.injEq, and_true, true_and]
    exact ⟨rfl, by omega⟩

/-- Witness for the amended C3: the concrete end-to-end scenario, obtained
by instantiating the theorem at a fresh key. -/
theorem c3_witness :
    (callOk (some 2) (some 10) none 0 0 emptyRL).1.allowed = true ∧
    (callOk (some 2) (some 10) none 0 0 emptyRL).1.remaining = 1 ∧
    (callOk (some 2) (some 10) none 1 1 scenState1).1.allowed = true ∧
    (callOk (some 2) (some 10) none 1 1 scenState1).1.remaining = 0 ∧
    (callOk (some 2) (some 10) none 2 2 scenState2).1.allowed = false ∧
    (callOk (some 2) (some 10) none 2 2 scenState2).1.reset_time = 10 ∧
    (callOk (some 2) (some 10) none 11 3 scenState3).1.allowed = true ∧
    (callOk (some 2) (some 10) none 11 3 scenState3).1.remaining = 1 :=
  (c3_per_call_and_scenario 2 10 (by decide) (by decide) 0 0 emptyRL
    (by decide)).2

/-- Claim C7 counterexample: at `now = 10`, `window = 10`, an entry scored
`0` sits exactly at `now - window`; its score is not strictly below
`now - window`, yet the trim removes it (the ZREMRANGEBYSCORE range is
inclusive), so the call sees `current_count = 1` (only its own insertion)
and the old entry is gone from the stored set. -/
theorem c7_counterexample :
    (callOk (some 5) (some 10) none 10 1 ⟨[⟨0, 0, 0⟩], none⟩).1.current_count
      = 1 ∧
    (⟨0, 0, 0⟩ : RLEntry) ∉
      (callOk (some 5) (some 10) none 10 1 ⟨[⟨0, 0, 0⟩], none⟩).2.entries ∧
    ¬((0 : ℚ) < 10 - 10) := by
  have htd : Int.tdiv 20 1 = 20 := by decide
  refine ⟨?_, ?_, ?_⟩ <;>
    norm_num [callOk, runScript, trimEntries, minScore, zadd, hasMember,
      luaTrunc, pyOr, settings_rate_limit_requests,
      settings_rate_limit_window, settings_rate_limit_burst, htd,
      RLEntry.mk.injEq]

/-- Claim C7 (amended): the pre-count trim at time `now` removes exactly the
entries with score in the inclusive range `[0, now - window]`, so an entry
survives the trim iff its score is negative or strictly greater than
`now - window`; the allow/deny test compares the limit against the size of
the trimmed set; consequently an entry added at `t ≥ 0` no longer counts
against the limit for any call made at or after `t + window`, while a call
made strictly before `t + window` still counts it. -/
theorem c7_trim_inclusive (now window rand : ℚ) (limit burst : ℤ)
    (st : RLState) (e : RLEntry) (he : e ∈ st.entries) :
    (e ∈ trimEntries now window st.entries ↔
      (e.score < 0 ∨ now - window < e.score)) ∧
    ((runScript window limit now burst rand st).1.allowedFlag = 1 ↔
      ((trimEntries now window st.entries).length : ℤ) < limit) ∧
    (0 ≤ e.score → e.score ≤ now - window →
      e ∉ trimEntries now window st.entries) ∧
    (now - window < e.score → e ∈ trimEntries now window st.entries) := by
  have hiff : e ∈ trimEntries now window st.entries ↔
      (e.score < 0 ∨ now - window < e.score) := by
    simp [trimEntries, List.mem_filter, he, decide_eq_true_eq, not_and_or,
      not_le]
  refine ⟨hiff, ?_, ?_, ?_⟩
  · simp only [runScript]
    by_cases hc : ((trimEntries now window st.entries).length : ℤ) ≥ limit
    · rw [if_pos hc]
      constructor
      · intro h
        have h0 : (0 : ℤ) = 1 := h
        omega
      · intro h; omega
    · rw [if_neg hc]
      constructor
      · intro _; omega
      · intro _; rfl
  · intro h0 h1 hmem
    rcases hiff.mp hmem with h | h <;> linarith
  · intro h
    exact hiff.mpr (Or.inr h)

/-- Witness for the amended C7 on a concrete one-entry state. -/
theorem c7_witness :
    ((⟨1, 0, 1⟩ : RLEntry) ∈
        trimEntries 5 3 (⟨[⟨1, 0, 1⟩], none⟩ : RLState).entries ↔
      ((1 : ℚ) < 0 ∨ (5 : ℚ) - 3 < 1)) ∧
    ((runScript 3 2 5 0 0 ⟨[⟨1, 0, 1⟩], none⟩).1.allowedFlag = 1 ↔
      ((trimEntries 5 3 (⟨[⟨1, 0, 1⟩], none⟩ : RLState).entries).length : ℤ)
        < 2) ∧
    ((0 : ℚ) ≤ 1 → (1 : ℚ) ≤ 5 - 3 →
      (⟨1, 0, 1⟩ : RLEntry) ∉
        trimEntries 5 3 (⟨[⟨1, 0, 1⟩], none⟩ : RLState).entries) ∧
    ((5 : ℚ) - 3 < 1 →
      (⟨1, 0, 1⟩ : RLEntry) ∈
        trimEntries 5 3 (⟨[⟨1, 0, 1⟩], none⟩ : RLState).entries) :=
  c7_trim_inclusive 5 3 0 2 0 ⟨[⟨1, 0, 1⟩], none⟩ ⟨1, 0, 1⟩ (by decide)

/-! Dictionary lemmas for the registry maps. -/

lemma dlookup_dinsert (k k' : String) (v : α) (l : List (String × α)) :
    dlookup k (dinsert k' v l) =
      if k' = k then some v else dlookup k l := by
  induction l with
  | nil => by_cases h : k' = k <;> simp [dinsert, dlookup, h]
  | cons p ps ih =>
    by_cases h1 : p.1 = k'
    · by_cases h2 : k' = k
      · subst h2
        simp [dinsert, dlookup, h1]
      · have h3 : ¬(p.1 = k) := by rw [h1]; exact h2
        simp [dinsert, dlookup, h1, h2, h3]
    · by_cases h2 : p.1 = k
      · have h3 : ¬(k' = k) := by
          intro he; exact h1 (by rw [h2, he])
        have h4 : ¬(k = k') := fun he => h3 he.symm
        simp [dinsert, dlookup, h1, h2, h3, h4]
      · simp [dinsert, dlookup, h1, h2, ih]

lemma dlookup_ddelete (k k' : String) (l : List (String × α)) :
    dlookup k (ddelete k' l) = if k' = k then none else dlookup k l := by
  induction l with
  | nil => simp [ddelete, dlookup]
  | cons p ps ih =>
    by_cases h1 : p.1 = k'
    · by_cases h2 : k' = k
      · subst h2
        simp [ddelete, dlookup, h1, ih]
      · have h3 : ¬(p.1 = k) := by rw [h1]; exact h2
        simp [ddelete, dlookup, h1, h2, h3, ih]
    · by_cases h2 : p.1 = k
      · have h3 : ¬(k' = k) := by
          intro he; exact h1 (by rw [h2, he])
        have h4 : ¬(k = k') := fun he => h3 he.symm
        simp [ddelete, dlookup, h1, h2, h3, h4]
      · simp [ddelete, dlookup, h1, h2, ih]

lemma dlookup_dmodify (k k' : String) (f : α → α) (l : List (String × α)) :
    dlookup k (dmodify k' f l) =
      if k' = k then (dlookup k l).map f else dlookup k l := by
  induction l with
  | nil => simp [dmodify, dlookup]
  | cons p ps ih =>
    by_cases h1 : p.1 = k'
    · by_cases h2 : k' = k
      · subst h2
        simp [dmodify, dlookup, h1]
      · have h3 : ¬(p.1 = k) := by rw [h1]; exact h2
        simp [dmodify, dlookup, h1, h2, h3]
    · by_cases h2 : p.1 = k
      · have h3 : ¬(k' = k) := by
          intro he; exact h1 (by rw [h2, he])
        have h4 : ¬(k = k') := fun he => h3 he.symm
        simp [dmodify, dlookup, h1, h2, h3, h4]
      · simp [dmodify, dlookup, h1, h2, ih]

lemma isSome_dlookup_dmodify (k k' : String) (f : α → α)
    (l : List (String × α)) :
    (dlookup k (dmodify k' f l)).isSome = (dlookup k l).isSome := by
  rw [dlookup_dmodify]
  split
  · cases dlookup k l <;> rfl
  · rfl

/-! Preservation of the `inSync` invariant by every registry operation. -/

lemma inSync_pushSent (cid : String) (m : OutMsg) (st : ManagerState)
    (h : inSync st) : inSync (pushSent cid m st) := by
  intro id
  simpa [pushSent, isSome_dlookup_dmodify] using h id

lemma inSync_updateSendMeta (cid : String) (now : ℚ) (n : ℕ)
    (st : ManagerState) (h : inSync st) : inSync (updateSendMeta cid now n st) := by
  intro id
  unfold updateSendMeta
  split
  · simpa [isSome_dlookup_dmodify] using h id
  · exact h id

lemma inSync_updateRecvMeta (cid : String) (now : ℚ) (n : ℕ)
    (st : ManagerState) (h : inSync st) : inSync (updateRecvMeta cid now n st) := by
  intro id
  unfold updateRecvMeta
  split
  · simpa [isSome_dlookup_dmodify] using h id
  · exact h id

lemma inSync_disconnect (cid : String) (st : ManagerState) (h : inSync st) :
    inSync (disconnect cid st) := by
  intro id
  simp only [disconnect, dlookup_ddelete]
  split
  · rfl
  · exact h id

lemma inSync_connect (ws : WSConn) (cid : String) (ra af : Bool) (now : ℚ)
    (st : ManagerState) (h : inSync st) : inSync (connect ws cid ra af now st).2 := by
  unfold connect
  split
  · exact h
  · split
    · exact h
    · intro id
      simp only [dlookup_dinsert]
      split
      · rfl
      · exact h id

lemma inSync_send (now : ℚ) (m : Message) (cid : String) (st : ManagerState)
    (h : inSync st) : inSync (send_personal_message now m cid st).2 := by
  unfold send_personal_message
  cases hws : dlookup cid st.active_connections with
  | none => exact h
  | some ws =>
    simp only []
    split
    · split
      · exact inSync_disconnect cid st h
      · exact inSync_pushSent cid _ st h
    · split
      · exact inSync_disconnect cid st h
      · exact inSync_updateSendMeta cid now (msgSize m) _
          (inSync_pushSent cid _ st h)

lemma inSync_broadcastLoop (now : ℚ) (m : Message) (ex : Option String)
    (origSize : ℕ) :
    ∀ (pending : List String) (st : ManagerState) (disc : List String),
      inSync st →
      inSync (broadcastLoop now m ex origSize st disc pending).2.1 := by
  intro pending
  induction pending with
  | nil =>
    intro st disc h
    unfold broadcastLoop
    split <;> exact h
  | cons c rest ih =>
    intro st disc h
    unfold broadcastLoop
    split
    · exact h
    · split
      · exact ih st disc h
      · exact ih _ _ (inSync_send now m c st h)

lemma inSync_disconnect_fold :
    ∀ (disc : List String) (st : ManagerState), inSync st →
      inSync (disc.foldl (fun s c => disconnect c s) st) := by
  intro disc
  induction disc with
  | nil => intro st h; exact h
  | cons c rest ih =>
    intro st h
    exact ih _ (inSync_disconnect c st h)

lemma inSync_broadcast (now : ℚ) (m : Message) (ex : Option String)
    (st : ManagerState) (h : inSync st) : inSync (broadcast now m ex st).2 := by
  have hl := inSync_broadcastLoop now m ex st.active_connections.length
    (st.active_connections.map Prod.fst) st [] h
  unfold broadcast
  rcases hbl : broadcastLoop now m ex st.active_connections.length st []
    (st.active_connections.map Prod.fst) with ⟨raised, st', disc⟩
  rw [hbl] at hl
  cases raised
  · simpa using inSync_disconnect_fold disc st' hl
  · simpa using hl

/-- Claim C6: starting from any registry state in which a metadata entry
exists iff a live handle exists for the same id, the invariant still holds
after any sequence of registry operations (connect, disconnect, send,
broadcast) — so it holds after each operation of any run from the empty
registry. -/
theorem c6_registry_maps_in_sync (ops : List RegOp) (st : ManagerState)
    (h : inSync st) : inSync (runOps ops st) := by
  induction ops generalizing st with
  | nil => exact h
  | cons op rest ih =>
    rw [runOps, List.foldl_cons]
    refine ih (applyOp op st) ?_
    cases op with
    | connectOp ws cid ra af now => exact inSync_connect ws cid ra af now st h
    | disconnectOp cid => exact inSync_disconnect cid st h
    | sendOp m cid now => exact inSync_send now m cid st h
    | broadcastOp m ex now => exact inSync_broadcast now m ex st h

/-- Witness for C6: a concrete run (connect three clients, a send, a
disconnect, a broadcast) from the empty registry keeps the maps in sync. -/
theorem c6_witness :
    inSync (runOps
      [RegOp.connectOp ⟨false, []⟩ "A" true false 0,
       RegOp.connectOp ⟨true, []⟩ "B" true false 0,
       RegOp.sendOp ⟨[1, 2]⟩ "A" 1,
       RegOp.disconnectOp "A",
       RegOp.broadcastOp ⟨[3]⟩ none 2]
      emptyManager) :=
  c6_registry_maps_in_sync
    [RegOp.connectOp ⟨false, []⟩ "A" true false 0,
     RegOp.connectOp ⟨true, []⟩ "B" true false 0,
     RegOp.sendOp ⟨[1, 2]⟩ "A" 1,
     RegOp.disconnectOp "A",
     RegOp.broadcastOp ⟨[3]⟩ none 2]
    emptyManager (fun _ => rfl)

/-- Registry with three live sessions A, B, C, where B's transport fails on
send (its `send_text` raises) — the spec's broadcast-isolation scenario. -/
def c4State : ManagerState :=
  { active_connections :=
      [("A", ⟨false, []⟩), ("B", ⟨true, []⟩), ("C", ⟨false, []⟩)]
    connection_metadata :=
      [("A", newSession 0), ("B", newSession 0), ("C", newSession 0)] }

/-- Claim C4, evaluated at the spec's own scenario: a broadcast from A
(excluding A) over sessions A, B, C with B's delivery failing.  The failed
send's exception handler calls `disconnect`, which deletes from
`active_connections` while `broadcast` is iterating `.items()` over that
same dict, so the loop's next `next()` raises
`RuntimeError: dictionary changed size during iteration` (first component
`true`): the broadcast aborts, C never receives the payload (its delivery
log stays empty), and the post-loop cleanup is skipped — contradicting the
claim that delivery proceeds to every remaining session. -/
theorem c4_broadcast_aborts :
    (broadcast 1 ⟨[7]⟩ (some "A") c4State).1 = true ∧
    dlookup "B" (broadcast 1 ⟨[7]⟩ (some "A")
      c4State).2.active_connections = none ∧
    dlookup "C" (broadcast 1 ⟨[7]⟩ (some "A")
      c4State).2.active_connections = some ⟨false, []⟩ ∧
    dlookup "A" (broadcast 1 ⟨[7]⟩ (some "A")
      c4State).2.active_connections = some ⟨false, []⟩ := by
  decide

/-- Registry with the single healthy session A, for the C5 counterexample. -/
def c5State : ManagerState :=
  { active_connections := [("A", ⟨false, []⟩)]
    connection_metadata := [("A", newSession 0)] }

/-- A payload one byte over the 16384-byte ceiling. -/
def c5BigMsg : Message := ⟨List.replicate 16385 0⟩

/-- Claim C5 counterexample: an outbound payload of 16385 bytes is rejected
(not sent), but the structured error delivered to the session is
`{"error": "Message too large", "max_size": 16384}`: its only numeric field
is the limit — the attempted size 16385 appears nowhere in it, although the
claim requires the rejection to report both the limit and the actual size
on the outbound path too. -/
theorem c5_counterexample :
    (send_personal_message 1 c5BigMsg "A" c5State).1 = false ∧
    dlookup "A" (send_personal_message 1 c5BigMsg "A"
      c5State).2.active_connections
      = some ⟨false, [OutMsg.errTooLargeOut 16384]⟩ ∧
    (OutMsg.errTooLargeOut 16384).numFields = [16384] ∧
    (16385 : ℕ) ∉ (OutMsg.errTooLargeOut 16384).numFields := by
  have hsize : msgSize c5BigMsg = 16385 := by
    simp only [msgSize, c5BigMsg, List.length_replicate]
  have hgt : msgSize c5BigMsg > settings_websocket_max_message_size := by
    rw [hsize]
    norm_num [settings_websocket_max_message_size]
  have ha : dlookup "A" c5State.active_connections = some ⟨false, []⟩ := rfl
  have hstep : send_personal_message 1 c5BigMsg "A" c5State =
      (false, pushSent "A"
        (OutMsg.errTooLargeOut settings_websocket_max_message_size)
        c5State) := by
    simp only [send_personal_message, ha]
    rw [if_pos hgt]
    rfl
  refine ⟨?_, ?_, ?_, ?_⟩
  · rw [hstep]
  · rw [hstep]
    simp [pushSent, dlookup_dmodify, c5State, dlookup,
      settings_websocket_max_message_size]
  · rfl
  · decide

/-- Claim C5 (amended): for a session with a healthy handle, a payload of
exactly 16384 wire bytes is accepted on both paths — outbound it is sent
and `messages_sent`/`bytes_sent`/`last_activity` are updated, inbound it is
handed on and the receive counters are updated — while a payload of 16385
bytes is rejected before transmission on both paths with a structured
error and without touching any counter; the inbound rejection reports both
the limit and the actual size, but the outbound rejection reports only the
limit. -/
theorem c5_size_gate_amended (client_id : String) (ws : WSConn) (s : Session)
    (st : ManagerState) (now : ℚ) (m_ok m_big : Message) (rate : Decision)
    (ha : dlookup client_id st.active_connections = some ws)
    (hf : ws.fails = false)
    (hm : dlookup client_id st.connection_metadata = some s)
    (hok : msgSize m_ok = 16384)
    (hbig : msgSize m_big = 16385)
    (hrate : rate.allowed = true) :
    ((send_personal_message now m_ok client_id st).1 = true ∧
     dlookup client_id (send_personal_message now m_ok client_id
       st).2.active_connections
       = some { ws with sent := ws.sent ++ [OutMsg.payload m_ok] } ∧
     dlookup client_id (send_personal_message now m_ok client_id
       st).2.connection_metadata
       = some { s with messages_sent := s.messages_sent + 1
                       bytes_sent := s.bytes_sent + 16384
                       last_activity := now }) ∧
    ((send_personal_message now m_big client_id st).1 = false ∧
     dlookup client_id (send_personal_message now m_big client_id
       st).2.active_connections
       = some { ws with sent := ws.sent ++ [OutMsg.errTooLargeOut 16384] } ∧
     (send_personal_message now m_big client_id st).2.connection_metadata
       = st.connection_metadata) ∧
    ((receiveStep now false rate client_id m_ok st).processed = true ∧
     (receiveStep now false rate client_id m_ok st).raised = false ∧
     dlookup client_id (receiveStep now false rate client_id m_ok
       st).st.connection_metadata
       = some { s with messages_received := s.messages_received + 1
                       bytes_received := s.bytes_received + 16384
                       last_activity := now }) ∧
    ((receiveStep now false rate client_id m_big st).processed = false ∧
     dlookup client_id (receiveStep now false rate client_id m_big
       st).st.active_connections
       = some { ws with sent := ws.sent ++
           [OutMsg.errTooLargeIn 16384 16385] } ∧
     (receiveStep now false rate client_id m_big st).st.connection_metadata
       = st.connection_metadata) := by
  have hb_ok : ¬(msgSize m_ok > settings_websocket_max_message_size) := by
    rw [hok]; norm_num [settings_websocket_max_message_size]
  have hb_big : msgSize m_big > settings_websocket_max_message_size := by
    rw [hbig]; norm_num [settings_websocket_max_message_size]
  have hmax : settings_websocket_max_message_size = 16384 := by
    norm_num [settings_websocket_max_message_size]
  refine ⟨⟨?_, ?_, ?_⟩, ⟨?_, ?_, ?_⟩, ⟨?_, ?_, ?_⟩, ⟨?_, ?_, ?_⟩⟩ <;>
    simp [send_personal_message, receiveStep, ha, hf, hm, hrate, hb_ok,
      hb_big, hok, hbig, hmax, pushSent, updateSendMeta, updateRecvMeta,
      dlookup_dmodify]

/-- Witness for the amended C5 on the concrete one-session registry. -/
theorem c5_witness :
    ((send_personal_message 2 ⟨List.replicate 16384 0⟩ "A" c5State).1
        = true ∧
     dlookup "A" (send_personal_message 2 ⟨List.replicate 16384 0⟩ "A"
       c5State).2.active_connections
       = some { fails := false,
                sent := [] ++ [OutMsg.payload ⟨List.replicate 16384 0⟩] } ∧
     dlookup "A" (send_personal_message 2 ⟨List.replicate 16384 0⟩ "A"
       c5State).2.connection_metadata
       = some { (newSession 0) with
                messages_sent := (newSession 0).messages_sent + 1
                bytes_sent := (newSession 0).bytes_sent + 16384
                last_activity := 2 }) ∧
    ((send_personal_message 2 c5BigMsg "A" c5State).1 = false ∧
     dlookup "A" (send_personal_message 2 c5BigMsg "A"
       c5State).2.active_connections
       = some { fails := false,
                sent := [] ++ [OutMsg.errTooLargeOut 16384] } ∧
     (send_personal_message 2 c5BigMsg "A" c5State).2.connection_metadata
       = c5State.connection_metadata) ∧
    ((receiveStep 2 false (failDecision none none 0 "e") "A"
        ⟨List.replicate 16384 0⟩ c5State).processed = true ∧
     (receiveStep 2 false (failDecision none none 0 "e") "A"
        ⟨List.replicate 16384 0⟩ c5State).raised = false ∧
     dlookup "A" (receiveStep 2 false (failDecision none none 0 "e") "A"
        ⟨List.replicate 16384 0⟩ c5State).st.connection_metadata
       = some { (newSession 0) with
                messages_received := (newSession 0).messages_received + 1
                bytes_received := (newSession 0).bytes_received + 16384
                last_activity := 2 }) ∧
    ((receiveStep 2 false (failDecision none none 0 "e") "A" c5BigMsg
        c5State).processed = false ∧
     dlookup "A" (receiveStep 2 false (failDecision none none 0 "e") "A"
        c5BigMsg c5State).st.active_connections
       = some { fails := false,
                sent := [] ++ [OutMsg.errTooLargeIn 16384 16385] } ∧
     (receiveStep 2 false (failDecision none none 0 "e") "A" c5BigMsg
        c5State).st.connection_metadata
       = c5State.connection_metadata) :=
  c5_size_gate_amended "A" ⟨false, []⟩ (newSession 0) c5State 2
    ⟨List.replicate 16384 0⟩ c5BigMsg (failDecision none none 0 "e")
    rfl rfl rfl
    (by simp only [msgSize, List.length_replicate])
    (by simp only [msgSize, c5BigMsg, List.length_replicate]) rfl

/-- A `String` of length zero is the empty string (Python's falsy id). -/
lemma eq_empty_of_length_eq_zero (s : String) (h : s.length = 0) : s = "" := by
  cases s with
  | mk data =>
    cases data with
    | nil => rfl
    | cons c cs => simp [String.length] at h

/-- Claim C8: the endpoint refuses a client id of length 0 and of length 101
with the protocol-error close code 4000 and an unchanged registry, while
ids of length 1 and of length 100 pass validation and (with the rate
limiter allowing and the accept succeeding) are connected. -/
theorem c8_client_id_bounds (ws : WSConn) (client_id : String)
    (rateAllowed acceptFails : Bool) (now : ℚ) (st : ManagerState) :
    (client_id.length = 0 →
      websocket_endpoint_accept ws client_id rateAllowed acceptFails now st =
        AdmitResult.closedWithCode 4000 st) ∧
    (client_id.length = 101 →
      websocket_endpoint_accept ws client_id rateAllowed acceptFails now st =
        AdmitResult.closedWithCode 4000 st) ∧
    (client_id.length = 1 ∨ client_id.length = 100 →
      websocket_endpoint_accept ws client_id true false now st =
        AdmitResult.accepted (connect ws client_id true false now st).2) := by
  refine ⟨?_, ?_, ?_⟩
  · intro h0
    have he : client_id = "" := eq_empty_of_length_eq_zero _ h0
    simp [websocket_endpoint_accept, he]
  · intro h101
    have hgt : client_id.length > 100 := by omega
    simp [websocket_endpoint_accept, hgt]
  · intro hlen
    have hne : ¬(client_id = "") := by
      intro he
      rw [he] at hlen
      simp [String.length] at hlen
    have hle : ¬(client_id.length > 100) := by
      rcases hlen with h | h <;> omega
    simp [websocket_endpoint_accept, hne, hle, connect]

/-- Witness for C8 at ids of length 0, 101, 1 and 100. -/
theorem c8_witness :
    (websocket_endpoint_accept ⟨false, []⟩ "" true false 0 emptyManager =
      AdmitResult.closedWithCode 4000 emptyManager) ∧
    (websocket_endpoint_accept ⟨false, []⟩
      (String.mk (List.replicate 101 'a')) true false 0 emptyManager =
      AdmitResult.closedWithCode 4000 emptyManager) ∧
    (websocket_endpoint_accept ⟨false, []⟩ "a" true false 0 emptyManager =
      AdmitResult.accepted
        (connect ⟨false, []⟩ "a" true false 0 emptyManager).2) ∧
    (websocket_endpoint_accept ⟨false, []⟩
      (String.mk (List.replicate 100 'a')) true false 0 emptyManager =
      AdmitResult.accepted
        (connect ⟨false, []⟩ (String.mk (List.replicate 100 'a')) true false
          0 emptyManager).2) := by
  refine ⟨?_, ?_, ?_, ?_⟩
  · exact (c8_client_id_bounds ⟨false, []⟩ "" true false 0 emptyManager).1
      (by decide)
  · exact (c8_client_id_bounds ⟨false, []⟩ (String.mk (List.replicate 101 'a'))
      true false 0 emptyManager).2.1 (by decide)
  · exact (c8_client_id_bounds ⟨false, []⟩ "a" true false 0
      emptyManager).2.2 (Or.inl (by decide))
  · exact (c8_client_id_bounds ⟨false, []⟩ (String.mk (List.replicate 100 'a'))
      true false 0 emptyManager).2.2 (Or.inr (by decide))

end BOT
